import Mathlib

/-!
Verification of the investment-banking RAG bot core
(`src/investment_rag_bot/{embeddings,llm,rag_engine,config}.py`).

Shallow embedding conventions:
* Python floats are modelled as rationals (`ℚ`); the constant `1e-5`
  becomes `1 / 100000`.
* External collaborators (the Gemini embedding provider, the generative
  model, the vector index, the PDF extractor, the filesystem) are
  parameters of each operation: a fallible collaborator is a function
  into `Option`/`Except`, whose `none`/`.error` branch models the
  Python call raising an exception.
* A Python dict returned to the caller is modelled as a structure whose
  possibly-absent keys have `Option` types; `none` means the key is
  absent from the returned dict.
* Wall-clock time is irrelevant to every claim; `time.sleep` is dropped
  and `time.time() - start_time` is abstracted as an `elapsed` parameter.
-/

namespace InvestmentRagBot

/-! ## Embedding Client (`embeddings.py`, class GeminiEmbeddings) -/

/-- The fallback embedding built in the `except` branch of
`GeminiEmbeddings.embed_text`: `[0.0] * 768` with index 0 set to `1e-5`. -/
def fallback_embedding : List ℚ :=
  (1 / 100000 : ℚ) :: List.replicate 767 0

/-- The truncation applied at the top of `embed_text`:
`if len(text) > 25000: text = text[:25000]`. -/
def truncated (text : String) : String :=
  if 25000 < text.length then text.take 25000 else text

/-- Model of `GeminiEmbeddings.embed_text`.  `provider` models
`genai.embed_content(...)["embedding"]`: `none` is the call raising.
The whole Python body is wrapped in `try/except`, so a provider failure
returns `fallback_embedding`; on success, an all-zero embedding has its
first component overwritten with `1e-5` (an empty provider result makes
`embedding[0] = 1e-5` raise IndexError, which the same `except` turns
into the fallback). -/
def embed_text (provider : String → Option (List ℚ)) (text : String) : List ℚ :=
  match provider (truncated text) with
  | none => fallback_embedding
  | some embedding =>
    if embedding.all (fun v => v == 0) then
      match embedding with
      | [] => fallback_embedding
      | _ :: rest => (1 / 100000 : ℚ) :: rest
    else
      embedding

/-- Model of `GeminiEmbeddings.embed_batch`: walks `texts` in slices of
`batch_size` (`range(0, len(texts), batch_size)`), embeds each text of a
slice with `embed_text`, and concatenates the slices in order.  The
inter-batch `time.sleep(0.5)` has no effect on the value.  A zero
`batch_size` makes the Python `range` raise; the claims only concern
positive `batch_size`, so that branch is mapped to `[]`. -/
def embed_batch (provider : String → Option (List ℚ)) (texts : List String)
    (batch_size : ℕ) : List (List ℚ) :=
  if h : batch_size = 0 ∨ texts = [] then []
  else
    (texts.take batch_size).map (embed_text provider) ++
      embed_batch provider (texts.drop batch_size) batch_size
termination_by texts.length
decreasing_by
  push_neg at h
  have h1 : 0 < texts.length := List.length_pos.mpr h.2
  have h2 : 0 < batch_size := Nat.pos_of_ne_zero h.1
  simpa using Nat.sub_lt h1 h2

/-! ## Response Generator (`llm.py`, class GeminiLLM) -/

/-- Model of `GeminiLLM._create_standard_prompt` (the f-string, verbatim). -/
def create_standard_prompt (query : String) : String :=
  "You are an investment banking assistant based on specific investment literature and financial documents.\n        \nQuestion: " ++ query ++ "\n\nIf this question is outside the scope of your investment banking knowledge, please respond with:\n\"I\x27m sorry, but I don\x27t have information about that in my investment documentation.\"\n\nOtherwise, provide a clear, accurate, and helpful response to the investment banking question."

/-- Model of `GeminiLLM._create_rag_prompt` (the f-string, verbatim). -/
def create_rag_prompt (query : String) (context : String) : String :=
  "You are an investment banking assistant based on specific investment literature and financial documents.\n        \nBelow is information from the investment banking documents that may be relevant to the question:\n\n" ++ context ++ "\n\nQuestion: " ++ query ++ "\n\nBased ONLY on the information provided above, please answer the question. \nIf the information provided doesn\x27t contain the answer, respond with:\n\"I\x27m sorry, but I don\x27t have information about that in my investment documentation.\"\n\nYour response should be:\n1. Accurate and based only on the provided context\n2. Clear and easy to understand\n3. Properly formatted for readability\n4. Concise but thorough"

/-- The fixed apology returned by `generate_response` when the model call
raises. -/
def generation_apology : String :=
  "I\x27m sorry, I encountered an error while generating a response. Please try again."

/-- The prompt selection at the top of `generate_response`: Python picks
the RAG prompt iff `context` is truthy (not `None` and non-empty). -/
def llm_prompt (query : String) (context : Option String) : String :=
  match context with
  | some c => if c.isEmpty then create_standard_prompt query else create_rag_prompt query c
  | none => create_standard_prompt query

/-- Model of `GeminiLLM.generate_response`.  `model` models
`self.model.generate_content(prompt).text`: `.error` is that call (or the
`.text` access) raising; the `try/except` maps any failure to the fixed
apology string. -/
def generate_response (model : String → Except String String) (query : String)
    (context : Option String) : String :=
  match model (llm_prompt query context) with
  | .ok text => text
  | .error _ => generation_apology

/-! ## Data model of the orchestrator (`rag_engine.py`, class RAGEngine)

The orchestrator state is the `processed_files` registry.  Python keeps a
`set` of filenames and only ever inserts after an explicit membership
test, so a duplicate-free `List String` (inserting at the tail) is a
faithful model; `len(set)` is the list length. -/

/-- One retrieved match as returned by the vector index
(`{text, source, score}`). -/
structure RetrievalResult where
  text : String
  source : String
  score : ℚ
deriving DecidableEq, Repr

/-- The tunables of `config.RagConfig` that `RAGEngine.query` reads on
each call (`retrieval_top_k`, `similarity_threshold`). -/
structure RagConfig where
  retrieval_top_k : ℕ
  similarity_threshold : ℚ
deriving Repr

/-- A chunk as produced by `pdf_processor.process_pdf`; the engine only
reads its `"text"` key. -/
structure Chunk where
  text : String
deriving DecidableEq, Repr

/-- An item passed to `vector_store.upsert_items`: the chunk after the
engine attached `"id"` and `"embedding"`. -/
structure UpsertItem where
  id : String
  text : String
  embedding : List ℚ
deriving DecidableEq, Repr

/-- Model of `os.path.basename` for POSIX paths: the suffix after the last slash
(the whole path when it has no slash), computed by a left fold that
restarts at each slash. -/
def basename (path : String) : String :=
  String.mk (path.toList.foldl (fun acc c => if c = '/' then [] else acc ++ [c]) [])

/-- The external collaborators of `RAGEngine.process_pdf`:
`os.path.exists`, `self.pdf_processor.process_pdf` (a `[]` result models
both empty extraction and the engine treating it as no text),
the embedding provider used by `embed_text`/`embed_batch`, and
`self.vector_store.upsert_items`. -/
structure IngestEnv where
  fsExists : String → Bool
  extract : String → List Chunk
  provider : String → Option (List ℚ)
  upsert : List UpsertItem → Bool

/-- The loop `for i, embedding in enumerate(embeddings)` that attaches
`chunks[i]["embedding"] = embedding` and `chunks[i]["id"] = f"{filename}_{i}"`
(the two lists always have equal length because `embed_batch` returns one
vector per text). -/
def attach_ids (filename : String) (chunks : List Chunk)
    (embeddings : List (List ℚ)) : List UpsertItem :=
  (chunks.zip embeddings).enum.map
    (fun p => ⟨filename ++ "_" ++ toString p.1, p.2.1.text, p.2.2⟩)

/-- Model of `RAGEngine.process_pdf`.  Returns the success boolean paired with the
new registry.  Mirrors the source order: existence check, registry
short-circuit, extraction, empty-chunks check, `embed_batch` with the
default `batch_size=5`, upsert, and registry insertion only on upsert
success. -/
def process_pdf (env : IngestEnv) (processed : List String)
    (pdf_path : String) : Bool × List String :=
  if ¬ env.fsExists pdf_path then (false, processed)
  else
    let filename := basename pdf_path
    if filename ∈ processed then (true, processed)
    else
      let chunks := env.extract pdf_path
      if chunks = [] then (false, processed)
      else
        let texts := chunks.map Chunk.text
        let embeddings := embed_batch env.provider texts 5
        let items := attach_ids filename chunks embeddings
        if env.upsert items then (true, processed ++ [filename])
        else (false, processed)

/-! ## Query path (`RAGEngine.query`) -/

/-- The dict `RAGEngine.query` returns.  `processing_time` and `error`
are `Option` because each appears only on some return paths. -/
structure QueryRecord where
  response : String
  context : List RetrievalResult
  has_context : Bool
  processing_time : Option ℚ
  error : Option String
deriving DecidableEq, Repr

/-- The context string joined with blank lines from blocks of the form
`[Document: source]` newline `text`, one block per filtered result, in
order. -/
def build_context (rs : List RetrievalResult) : String :=
  String.intercalate "\n\n"
    (rs.map (fun r => "[Document: " ++ r.source ++ "]\n" ++ r.text))

/-- The fixed apology of the `except` branch of `RAGEngine.query`. -/
def query_apology : String :=
  "I\x27m sorry, I encountered an error while processing your query."

/-- The body of the `try` block of `RAGEngine.query`: embed the query
(`embedF` models `self.embeddings.embed_text` at the level of the whole
call, `.error` = it raising), retrieve (`storeQ` models
`self.vector_store.query`), filter by `score >= config.similarity_threshold`,
then generate grounded or ungrounded via `generate_response`
(which never raises, see `generate_response`). -/
def query_flow (cfg : RagConfig) (embedF : String → Except String (List ℚ))
    (storeQ : List ℚ → ℕ → Except String (List RetrievalResult))
    (model : String → Except String String) (elapsed : ℚ)
    (query_text : String) : Except String QueryRecord := do
  let query_embedding ← embedF query_text
  let results ← storeQ query_embedding cfg.retrieval_top_k
  let filtered_results :=
    results.filter (fun r => decide (cfg.similarity_threshold ≤ r.score))
  if filtered_results.isEmpty then
    pure ⟨generate_response model query_text none, [], false, some elapsed, none⟩
  else
    pure ⟨generate_response model query_text (some (build_context filtered_results)),
          filtered_results, true, some elapsed, none⟩

/-- Model of `RAGEngine.query`: the `try` body with the `except` branch that
returns the fixed apology dict (note: no `processing_time` key there). -/
def query (cfg : RagConfig) (embedF : String → Except String (List ℚ))
    (storeQ : List ℚ → ℕ → Except String (List RetrievalResult))
    (model : String → Except String String) (elapsed : ℚ)
    (query_text : String) : QueryRecord :=
  match query_flow cfg embedF storeQ model elapsed query_text with
  | .ok r => r
  | .error e => ⟨query_apology, [], false, none, some e⟩

/-! ## Stats path (`RAGEngine.get_stats`) -/

/-- The dict `self.vector_store.get_stats()` returns, as `RAGEngine.get_stats`
reads it: `{"namespaces": {ns: {"vector_count": n}}, "index_fullness": f}`,
with every `.get(..., default)` access modelled by list lookup with
default. -/
structure VectorStats where
  namespaces : List (String × ℕ)
  index_fullness : ℚ
deriving DecidableEq, Repr

/-- The dict `RAGEngine.get_stats` returns; on the error path only the
`error` key is present. -/
structure StatsRecord where
  processed_files : Option (List String)
  file_count : Option ℕ
  vector_count : Option ℕ
  index_fullness : Option ℚ
  vector_stats : Option VectorStats
  error : Option String
deriving DecidableEq, Repr

/-- Model of `RAGEngine.get_stats`.  `statsF` models the
`self.vector_store.get_stats()` call (`.error` = it raising, caught by
the `except` branch); `ns` is `config.pinecone_namespace`. -/
def get_stats (statsF : Except String VectorStats) (ns : String)
    (processed : List String) : StatsRecord :=
  match statsF with
  | .ok vector_stats =>
    { processed_files := some processed
      file_count := some processed.length
      vector_count := some ((vector_stats.namespaces.lookup ns).getD 0)
      index_fullness := some vector_stats.index_fullness
      vector_stats := some vector_stats
      error := none }
  | .error e => ⟨none, none, none, none, none, some e⟩

/-! ## Evaluation lemmas for `embed_text` -/

theorem embed_text_of_none {provider : String → Option (List ℚ)} {text : String}
    (h : provider (truncated text) = none) :
    embed_text provider text = fallback_embedding := by
  simp [embed_text, h]

theorem embed_text_of_some_allzero {provider : String → Option (List ℚ)}
    {text : String} {a : ℚ} {rest : List ℚ}
    (h : provider (truncated text) = some (a :: rest))
    (hz : (a :: rest).all (fun v => v == 0) = true) :
    embed_text provider text = (1 / 100000 : ℚ) :: rest := by
  simp only [embed_text, h, hz, if_true]

theorem embed_text_of_some_nonzero {provider : String → Option (List ℚ)}
    {text : String} {v : List ℚ}
    (h : provider (truncated text) = some v)
    (hz : v.all (fun x => x == 0) = false) :
    embed_text provider text = v := by
  simp only [embed_text, h, hz, Bool.false_eq_true, if_false]

/-- Claim C4: if the embedding provider call fails, `embed_text` does not
raise and returns the deterministic fallback vector: 768 components, all
zero except the first, which is `1e-5`. -/
theorem embed_text_provider_failure_fallback
    (provider : String → Option (List ℚ)) (text : String)
    (h : provider (truncated text) = none) :
    embed_text provider text = (1 / 100000 : ℚ) :: List.replicate 767 0 :=
  embed_text_of_none h

/-- Witness for C4 at a concrete provider that always fails. -/
theorem embed_text_provider_failure_fallback_witness :
    embed_text (fun _ => none) "what is EBITDA" =
      (1 / 100000 : ℚ) :: List.replicate 767 0 :=
  embed_text_provider_failure_fallback (fun _ => none) "what is EBITDA" rfl

/-- Claim C5: for every text of length at most 25000, as long as the
provider only ever returns 768-dimensional vectors, `embed_text` returns
a 768-dimensional vector with at least one non-zero component, on every
path (provider failure, all-zero provider result, ordinary result). -/
theorem embed_text_dim_and_nonzero
    (provider : String → Option (List ℚ)) (text : String)
    (hlen : text.length ≤ 25000)
    (hdim : ∀ v, provider (truncated text) = some v → v.length = 768) :
    (embed_text provider text).length = 768 ∧
      ∃ x ∈ embed_text provider text, x ≠ 0 := by
  cases hp : provider (truncated text) with
  | none =>
      rw [embed_text_of_none hp]
      refine ⟨?_, ⟨1 / 100000, ?_, by norm_num⟩⟩
      · rw [fallback_embedding, List.length_cons, List.length_replicate]
      · rw [fallback_embedding]
        exact List.mem_cons_self _ _
  | some v =>
      have hv : v.length = 768 := hdim v hp
      cases v with
      | nil => simp at hv
      | cons a rest =>
          by_cases hz : (a :: rest).all (fun x => x == 0) = true
          · rw [embed_text_of_some_allzero hp hz]
            constructor
            · simpa using hv
            · exact ⟨1 / 100000, by simp, by norm_num⟩
          · rw [embed_text_of_some_nonzero hp (Bool.not_eq_true _ |>.mp hz)]
            refine ⟨hv, ?_⟩
            have : ¬ ∀ x ∈ a :: rest, x = 0 := by
              intro hall
              exact hz (by simpa [List.all_eq_true] using hall)
            push_neg at this
            exact this

/-- Witness for C5 at a provider returning a concrete 768-dimensional
vector. -/
theorem embed_text_dim_and_nonzero_witness :
    (embed_text (fun _ => some (List.replicate 768 (2 : ℚ))) "alpha").length = 768 ∧
      ∃ x ∈ embed_text (fun _ => some (List.replicate 768 (2 : ℚ))) "alpha", x ≠ 0 :=
  embed_text_dim_and_nonzero (fun _ => some (List.replicate 768 (2 : ℚ))) "alpha"
    (by decide)
    (fun v h => by
      have hv : List.replicate 768 (2 : ℚ) = v := Option.some.inj h
      rw [← hv, List.length_replicate])

/-- Auxiliary strong induction for `embed_batch`: with a positive batch
size, batching is exactly `List.map (embed_text provider)`. -/
theorem embed_batch_eq_map_aux (provider : String → Option (List ℚ))
    (bsize : ℕ) (hb : 0 < bsize) :
    ∀ n (texts : List String), texts.length ≤ n →
      embed_batch provider texts bsize = texts.map (embed_text provider) := by
  intro n
  induction n with
  | zero =>
      intro texts hlen
      have hnil : texts = [] := List.eq_nil_of_length_eq_zero (Nat.le_zero.mp hlen)
      subst hnil
      rw [embed_batch]
      simp
  | succ n ih =>
      intro texts hlen
      by_cases hnil : texts = []
      · subst hnil
        rw [embed_batch]
        simp
      · have hcond : ¬ (bsize = 0 ∨ texts = []) := by
          push_neg
          exact ⟨Nat.pos_iff_ne_zero.mp hb, hnil⟩
        have hdrop : (texts.drop bsize).length ≤ n := by
          have h1 : 0 < texts.length := List.length_pos.mpr hnil
          have h2 : (texts.drop bsize).length = texts.length - bsize := by simp
          omega
        rw [embed_batch, dif_neg hcond, ih (texts.drop bsize) hdrop,
          ← List.map_append, List.take_append_drop]

/-- Claim C6: for every list of texts and positive batch size,
`embed_batch` returns exactly one vector per input text with order
preserved — it equals the pointwise map of `embed_text`, and in
particular has the same length as the input. -/
theorem embed_batch_one_vector_per_text (provider : String → Option (List ℚ))
    (texts : List String) (batch_size : ℕ) (hb : 0 < batch_size) :
    embed_batch provider texts batch_size = texts.map (embed_text provider) ∧
      (embed_batch provider texts batch_size).length = texts.length := by
  have h := embed_batch_eq_map_aux provider batch_size hb texts.length texts le_rfl
  exact ⟨h, by rw [h, List.length_map]⟩

/-- Witness for C6 at the default batch size 5 on a 7-element input. -/
theorem embed_batch_one_vector_per_text_witness :
    embed_batch (fun _ => none) ["a", "b", "c", "d", "e", "f", "g"] 5 =
        (["a", "b", "c", "d", "e", "f", "g"]).map (embed_text (fun _ => none)) ∧
      (embed_batch (fun _ => none) ["a", "b", "c", "d", "e", "f", "g"] 5).length = 7 :=
  embed_batch_one_vector_per_text (fun _ => none) ["a", "b", "c", "d", "e", "f", "g"] 5
    (by decide)

/-! ## Ingestion theorems (claims C2, C3) -/

/-- Claim C2: ingestion is idempotent per filename.  For a path whose
basename is already in the registry (and which exists on disk, as on any
re-submission of an ingested file), `process_pdf` returns success with
the registry unchanged.  The environment `env` is universally
quantified, so the result does not depend on `env.extract`,
`env.provider` or `env.upsert` at all: no extraction, embedding or
upsert is performed. -/
theorem process_pdf_idempotent (env : IngestEnv) (processed : List String)
    (pdf_path : String) (hex : env.fsExists pdf_path = true)
    (hmem : basename pdf_path ∈ processed) :
    process_pdf env processed pdf_path = (true, processed) := by
  simp [process_pdf, hex, hmem]

/-- A concrete ingestion environment whose collaborators would all
change the outcome if they were consulted on the short-circuit path. -/
def idem_env : IngestEnv :=
  ⟨fun _ => true, fun _ => [⟨"chunk text"⟩], fun _ => none, fun _ => true⟩

/-- Witness for C2: re-submitting `docs/report.pdf` after `report.pdf`
has been ingested. -/
theorem process_pdf_idempotent_witness :
    process_pdf idem_env ["report.pdf"] "docs/report.pdf" = (true, ["report.pdf"]) :=
  process_pdf_idempotent idem_env ["report.pdf"] "docs/report.pdf" rfl (by decide)

/-- Claim C3: registry atomicity on ingestion failure.  A missing file,
an empty extraction, or a failing upsert each make `process_pdf` return
`false` with the registry untouched; and whenever the registry changes
at all, the upsert succeeded, the call returned `true`, and the change
is exactly the addition of the file's basename. -/
theorem process_pdf_failure_keeps_registry (env : IngestEnv)
    (processed : List String) (pdf_path : String) :
    (env.fsExists pdf_path = false →
        process_pdf env processed pdf_path = (false, processed)) ∧
    (env.fsExists pdf_path = true → basename pdf_path ∉ processed →
        env.extract pdf_path = [] →
        process_pdf env processed pdf_path = (false, processed)) ∧
    (env.fsExists pdf_path = true → basename pdf_path ∉ processed →
        env.extract pdf_path ≠ [] →
        env.upsert (attach_ids (basename pdf_path) (env.extract pdf_path)
            (embed_batch env.provider ((env.extract pdf_path).map Chunk.text) 5)) = false →
        process_pdf env processed pdf_path = (false, processed)) ∧
    ((process_pdf env processed pdf_path).2 ≠ processed →
        (process_pdf env processed pdf_path).1 = true ∧
        (process_pdf env processed pdf_path).2 = processed ++ [basename pdf_path] ∧
        env.upsert (attach_ids (basename pdf_path) (env.extract pdf_path)
            (embed_batch env.provider ((env.extract pdf_path).map Chunk.text) 5)) = true) := by
  refine ⟨?_, ?_, ?_, ?_⟩
  · intro hex
    simp [process_pdf, hex]
  · intro hex hmem hext
    simp [process_pdf, hex, hmem, hext]
  · intro hex hmem hext hups
    simp [process_pdf, hex, hmem, hext, hups]
  · intro hne
    by_cases hex : env.fsExists pdf_path = true
    · by_cases hmem : basename pdf_path ∈ processed
      · have h : process_pdf env processed pdf_path = (true, processed) := by
          simp [process_pdf, hex, hmem]
        exact absurd (congrArg Prod.snd h) hne
      · by_cases hext : env.extract pdf_path = []
        · have h : process_pdf env processed pdf_path = (false, processed) := by
            simp [process_pdf, hex, hmem, hext]
          exact absurd (congrArg Prod.snd h) hne
        · by_cases hups : env.upsert (attach_ids (basename pdf_path) (env.extract pdf_path)
              (embed_batch env.provider ((env.extract pdf_path).map Chunk.text) 5)) = true
          · have h : process_pdf env processed pdf_path =
                (true, processed ++ [basename pdf_path]) := by
              simp [process_pdf, hex, hmem, hext, hups]
            exact ⟨by rw [h], by rw [h], hups⟩
          · have hups' : env.upsert (attach_ids (basename pdf_path) (env.extract pdf_path)
                (embed_batch env.provider ((env.extract pdf_path).map Chunk.text) 5)) = false :=
              Bool.not_eq_true _ |>.mp hups
            have h : process_pdf env processed pdf_path = (false, processed) := by
              simp [process_pdf, hex, hmem, hext, hups']
            exact absurd (congrArg Prod.snd h) hne
    · have hex' : env.fsExists pdf_path = false := Bool.not_eq_true _ |>.mp hex
      have h : process_pdf env processed pdf_path = (false, processed) := by
        simp [process_pdf, hex']
      exact absurd (congrArg Prod.snd h) hne

/-- A concrete ingestion environment whose vector-index upsert always
fails. -/
def fail_upsert_env : IngestEnv :=
  ⟨fun _ => true, fun _ => [⟨"sec filing text"⟩], fun _ => none, fun _ => false⟩

/-- Witness for C3: a forced upsert failure returns `false` and leaves
the registry unchanged. -/
theorem process_pdf_failure_keeps_registry_witness :
    process_pdf fail_upsert_env ["old.pdf"] "data/new.pdf" = (false, ["old.pdf"]) :=
  (process_pdf_failure_keeps_registry fail_upsert_env ["old.pdf"] "data/new.pdf").2.2.1
    rfl (by decide) (by decide) rfl

/-! ## Query-path theorems (claims C1, C7, C8) -/

theorem except_ok_bind {ε α β : Type} (a : α) (k : α → Except ε β) :
    (Except.ok a : Except ε α) >>= k = k a := rfl

theorem except_error_bind {ε α β : Type} (e : ε) (k : α → Except ε β) :
    (Except.error e : Except ε α) >>= k = Except.error e := rfl

/-- Evaluation of the `try` body of `RAGEngine.query` when embedding and
retrieval both succeed. -/
theorem query_flow_eval (cfg : RagConfig) (embedF : String → Except String (List ℚ))
    (storeQ : List ℚ → ℕ → Except String (List RetrievalResult))
    (model : String → Except String String) (elapsed : ℚ) (query_text : String)
    (query_embedding : List ℚ) (results : List RetrievalResult)
    (hembed : embedF query_text = .ok query_embedding)
    (hstore : storeQ query_embedding cfg.retrieval_top_k = .ok results) :
    query_flow cfg embedF storeQ model elapsed query_text =
      if (results.filter (fun r => decide (cfg.similarity_threshold ≤ r.score))).isEmpty then
        .ok ⟨generate_response model query_text none, [], false, some elapsed, none⟩
      else
        .ok ⟨generate_response model query_text
              (some (build_context
                (results.filter (fun r => decide (cfg.similarity_threshold ≤ r.score))))),
            results.filter (fun r => decide (cfg.similarity_threshold ≤ r.score)),
            true, some elapsed, none⟩ := by
  unfold query_flow
  simp only [hembed, except_ok_bind, hstore]
  split <;> rfl

/-- Claim C1: the returned context is exactly the retrieved results whose
score is at least the current `similarity_threshold`, with the index's
order preserved (`List.filter` keeps the ranking order).  A non-empty
filtered list yields `has_context = true` and a grounded generator call
on the built context; an empty one yields `has_context = false`, an
empty context and an ungrounded generator call. -/
theorem query_threshold_filtering (cfg : RagConfig)
    (embedF : String → Except String (List ℚ))
    (storeQ : List ℚ → ℕ → Except String (List RetrievalResult))
    (model : String → Except String String) (elapsed : ℚ) (query_text : String)
    (query_embedding : List ℚ) (results : List RetrievalResult)
    (hembed : embedF query_text = .ok query_embedding)
    (hstore : storeQ query_embedding cfg.retrieval_top_k = .ok results) :
    (results.filter (fun r => decide (cfg.similarity_threshold ≤ r.score)) ≠ [] →
        query cfg embedF storeQ model elapsed query_text =
          ⟨generate_response model query_text
              (some (build_context
                (results.filter (fun r => decide (cfg.similarity_threshold ≤ r.score))))),
            results.filter (fun r => decide (cfg.similarity_threshold ≤ r.score)),
            true, some elapsed, none⟩) ∧
    (results.filter (fun r => decide (cfg.similarity_threshold ≤ r.score)) = [] →
        query cfg embedF storeQ model elapsed query_text =
          ⟨generate_response model query_text none, [], false, some elapsed, none⟩) := by
  have he := query_flow_eval cfg embedF storeQ model elapsed query_text
    query_embedding results hembed hstore
  constructor
  · intro hne
    have hE : (results.filter (fun r => decide (cfg.similarity_threshold ≤ r.score))).isEmpty
        = false := by
      simpa [List.isEmpty_iff] using hne
    unfold query
    rw [he, hE]
    rfl
  · intro hnil
    have hE : (results.filter (fun r => decide (cfg.similarity_threshold ≤ r.score))).isEmpty
        = true := by
      simp [List.isEmpty_iff, hnil]
    unfold query
    rw [he, hE]
    rfl

/-- The three raw matches of the spec's threshold-monotonicity scenario,
with scores 0.9, 0.8, 0.6 in the index's descending order. -/
def c1_results : List RetrievalResult :=
  [⟨"chunk one", "doc1.pdf", 9 / 10⟩, ⟨"chunk two", "doc2.pdf", 8 / 10⟩,
   ⟨"chunk three", "doc3.pdf", 6 / 10⟩]

def c1_embed : String → Except String (List ℚ) := fun _ => .ok [1]

def c1_store : List ℚ → ℕ → Except String (List RetrievalResult) :=
  fun _ _ => .ok c1_results

def c1_model : String → Except String String := fun _ => .ok "generated answer"

/-- Witness for C1: with raw scores `[0.9, 0.8, 0.6]`, threshold 0.75
keeps exactly the first two results with `has_context = true`, and
threshold 0.95 keeps none with `has_context = false`. -/
theorem query_threshold_filtering_witness :
    query ⟨5, 3 / 4⟩ c1_embed c1_store c1_model 0 "What is EBITDA?" =
        ⟨generate_response c1_model "What is EBITDA?"
            (some (build_context
              [⟨"chunk one", "doc1.pdf", 9 / 10⟩, ⟨"chunk two", "doc2.pdf", 8 / 10⟩])),
          [⟨"chunk one", "doc1.pdf", 9 / 10⟩, ⟨"chunk two", "doc2.pdf", 8 / 10⟩],
          true, some 0, none⟩ ∧
      query ⟨5, 19 / 20⟩ c1_embed c1_store c1_model 0 "What is EBITDA?" =
        ⟨generate_response c1_model "What is EBITDA?" none, [], false, some 0, none⟩ := by
  have hfil1 : List.filter
      (fun r => decide ((⟨5, 3 / 4⟩ : RagConfig).similarity_threshold ≤ r.score)) c1_results =
      [⟨"chunk one", "doc1.pdf", 9 / 10⟩, ⟨"chunk two", "doc2.pdf", 8 / 10⟩] := by
    norm_num [c1_results, List.filter]
  have hfil2 : List.filter
      (fun r => decide ((⟨5, 19 / 20⟩ : RagConfig).similarity_threshold ≤ r.score)) c1_results =
      [] := by
    norm_num [c1_results, List.filter]
  constructor
  · have h := (query_threshold_filtering ⟨5, 3 / 4⟩ c1_embed c1_store c1_model 0
      "What is EBITDA?" [1] c1_results rfl rfl).1 (by simp [hfil1])
    rw [h, hfil1]
  · exact (query_threshold_filtering ⟨5, 19 / 20⟩ c1_embed c1_store c1_model 0
      "What is EBITDA?" [1] c1_results rfl rfl).2 hfil2

/-- Claim C7: the orchestrator never raises — whenever the `try` body of
`RAGEngine.query` raises (its flow evaluates to an error), `query`
returns the fixed apology, empty context, `has_context = false`, and the
error message. -/
theorem query_never_raises (cfg : RagConfig)
    (embedF : String → Except String (List ℚ))
    (storeQ : List ℚ → ℕ → Except String (List RetrievalResult))
    (model : String → Except String String) (elapsed : ℚ) (query_text : String)
    (e : String)
    (h : query_flow cfg embedF storeQ model elapsed query_text = .error e) :
    query cfg embedF storeQ model elapsed query_text =
      ⟨query_apology, [], false, none, some e⟩ := by
  unfold query
  rw [h]

def c7_embed_fail : String → Except String (List ℚ) :=
  fun _ => .error "embedding service unreachable"

/-- Witness for C7: a raising embedding call is absorbed into the
apology record. -/
theorem query_never_raises_witness :
    query ⟨5, 3 / 4⟩ c7_embed_fail c1_store c1_model 0 "any question" =
      ⟨query_apology, [], false, none, some "embedding service unreachable"⟩ :=
  query_never_raises ⟨5, 3 / 4⟩ c7_embed_fail c1_store c1_model 0 "any question"
    "embedding service unreachable" rfl

/-- Whenever the `try` body of `RAGEngine.query` completes, the record it
built carries `processing_time` and no `error` key. -/
theorem query_flow_ok_shape (cfg : RagConfig)
    (embedF : String → Except String (List ℚ))
    (storeQ : List ℚ → ℕ → Except String (List RetrievalResult))
    (model : String → Except String String) (elapsed : ℚ) (query_text : String)
    (r : QueryRecord)
    (h : query_flow cfg embedF storeQ model elapsed query_text = .ok r) :
    r.processing_time = some elapsed ∧ r.error = none := by
  unfold query_flow at h
  cases hembed : embedF query_text with
  | error e =>
      rw [hembed, except_error_bind] at h
      exact Except.noConfusion h
  | ok qe =>
      rw [hembed, except_ok_bind] at h
      cases hstore : storeQ qe cfg.retrieval_top_k with
      | error e =>
          rw [hstore, except_error_bind] at h
          exact Except.noConfusion h
      | ok results =>
          rw [hstore, except_ok_bind] at h
          dsimp only [] at h
          split at h <;> (cases h; exact ⟨rfl, rfl⟩)

/-- Claim C8 (amended): every return of `RAGEngine.query` carries
`response`, `context` and `has_context` (they are mandatory fields of
the record); the non-error paths additionally carry `processing_time`
and no `error` key, while the error path carries an `error` key and
omits `processing_time`. -/
theorem query_fields_by_path (cfg : RagConfig)
    (embedF : String → Except String (List ℚ))
    (storeQ : List ℚ → ℕ → Except String (List RetrievalResult))
    (model : String → Except String String) (elapsed : ℚ) (query_text : String) :
    ((query cfg embedF storeQ model elapsed query_text).processing_time = some elapsed ∧
        (query cfg embedF storeQ model elapsed query_text).error = none) ∨
    ((query cfg embedF storeQ model elapsed query_text).processing_time = none ∧
        ∃ e, (query cfg embedF storeQ model elapsed query_text).error = some e) := by
  unfold query
  cases hq : query_flow cfg embedF storeQ model elapsed query_text with
  | ok r =>
      exact Or.inl (query_flow_ok_shape cfg embedF storeQ model elapsed query_text r hq)
  | error e =>
      exact Or.inr ⟨rfl, e, rfl⟩

/-- Counterexample for C8 as stated: on the error path the returned dict
has no `processing_time` key (here a concrete failing embedding call),
so not every return path yields all four fields. -/
theorem query_error_path_omits_processing_time :
    (query ⟨5, 3 / 4⟩ c7_embed_fail c1_store c1_model 1 "q").processing_time = none ∧
      (query ⟨5, 3 / 4⟩ c7_embed_fail c1_store c1_model 1 "q").error =
        some "embedding service unreachable" :=
  ⟨rfl, rfl⟩

/-! ## Generation theorem (claim C9) -/

/-- Claim C9: if the generative-model call fails, `generate_response`
does not propagate the exception and returns the fixed apology string. -/
theorem generate_response_failure_apology (model : String → Except String String)
    (query_text : String) (context : Option String) (e : String)
    (h : model (llm_prompt query_text context) = .error e) :
    generate_response model query_text context =
      "I\x27m sorry, I encountered an error while generating a response. Please try again." := by
  unfold generate_response
  rw [h]
  rfl

/-- Witness for C9 at a concrete always-failing model, in grounded mode. -/
theorem generate_response_failure_apology_witness :
    generate_response (fun _ => .error "rate limited") "What is a leveraged buyout?"
        (some "[Document: doc1.pdf]\nchunk one") =
      "I\x27m sorry, I encountered an error while generating a response. Please try again." :=
  generate_response_failure_apology (fun _ => .error "rate limited")
    "What is a leveraged buyout?" (some "[Document: doc1.pdf]\nchunk one") "rate limited" rfl

/-! ## Stats theorem (claim C10) -/

/-- Claim C10: `get_stats` never raises — a raising vector-index stats
call yields a record containing only an `error` key, and otherwise the
record's `file_count` is the registry's size and `processed_files` its
members, with no `error` key. -/
theorem get_stats_never_raises (statsF : Except String VectorStats) (ns : String)
    (processed : List String) :
    (∀ e, statsF = .error e →
        get_stats statsF ns processed = ⟨none, none, none, none, none, some e⟩) ∧
    (∀ vs, statsF = .ok vs →
        (get_stats statsF ns processed).processed_files = some processed ∧
        (get_stats statsF ns processed).file_count = some processed.length ∧
        (get_stats statsF ns processed).error = none) := by
  constructor
  · intro e h
    rw [h]
    rfl
  · intro vs h
    rw [h]
    exact ⟨rfl, rfl, rfl⟩

/-- Witness for C10: both the raising and the successful stats call, at
concrete inputs. -/
theorem get_stats_never_raises_witness :
    get_stats (.error "index unavailable") "investment-banking" ["a.pdf", "b.pdf"] =
        ⟨none, none, none, none, none, some "index unavailable"⟩ ∧
      (get_stats (.ok ⟨[("investment-banking", 4)], 1 / 10⟩) "investment-banking"
          ["a.pdf", "b.pdf"]).file_count = some 2 :=
  ⟨(get_stats_never_raises (.error "index unavailable") "investment-banking"
      ["a.pdf", "b.pdf"]).1 "index unavailable" rfl,
   ((get_stats_never_raises (.ok ⟨[("investment-banking", 4)], 1 / 10⟩) "investment-banking"
      ["a.pdf", "b.pdf"]).2 ⟨[("investment-banking", 4)], 1 / 10⟩ rfl).2.1⟩

end InvestmentRagBot
